import Mathlib

/-!
Verification of the odds / EV engine in `src/scripts/ev.py` (nba-ev repository).

Shallow embedding: Python floats are modelled as exact rationals (ℚ), Python
exceptions as an explicit `Except PyErr` result where the code can raise, and
the provider JSON objects handled by the consensus builder as structured Lean
values.  Every definition mirrors the corresponding Python function; line
references point into `src/scripts/ev.py`.
-/

namespace NbaEV

/-! ## Configuration constants (ev.py lines 23, 42-61) -/

def KELLY_FRACTION : ℚ := 1/4

def MIN_BOOKS_FOR_CONSENSUS : ℕ := 2

def MAX_PROB_DIFF : ℚ := 1/10

def MIN_EDGE_THRESHOLD : ℚ := 1/50

def MAX_EDGE_THRESHOLD : ℚ := 1/5

def BANKROLL : ℚ := 1000

def MIN_UNIT_PCT : ℚ := 1/100

def MAX_UNIT_PCT : ℚ := 3/100

def BASE_UNIT : ℚ := BANKROLL * MIN_UNIT_PCT

def MAX_EDGE_CALC : ℚ := 3/20

/-- Model of the Python exception classes that the embedded code can raise.
`invalidPriceError` is the class named by the spec (`InvalidPriceError`); the
source never defines or raises it, but the constructor is needed to state the
spec's claim about it. -/
inductive PyErr
  | zeroDivisionError
  | typeError
  | attributeError
  | invalidPriceError
deriving DecidableEq

/-! ## Odds conversion utilities (ev.py lines 163-183, 861-873) -/

/-- ev.py lines 163-168, `american_to_decimal`, as a total function on ℚ
(the Python code raises `ZeroDivisionError` at `odds = 0`; theorems about this
total version carry an `odds ≠ 0` hypothesis, and `americanToDecimalE` below
models the raising behaviour). -/
def american_to_decimal (odds : ℚ) : ℚ :=
  if 0 < odds then 1 + odds / 100 else 1 - 100 / odds

/-- ev.py lines 163-168 with Python division modelled as fallible: the `else`
branch computes `100 / odds`, which raises `ZeroDivisionError` exactly when
`odds = 0`. -/
def americanToDecimalE (odds : ℚ) : Except PyErr ℚ :=
  if 0 < odds then Except.ok (1 + odds / 100)
  else if odds = 0 then Except.error PyErr.zeroDivisionError
  else Except.ok (1 - 100 / odds)

/-- ev.py lines 170-183, `calculate_implied_probability`. -/
def calculate_implied_probability (odds : ℚ) : ℚ :=
  if 0 < odds then 100 / (odds + 100) else |odds| / (|odds| + 100)

/-- ev.py lines 861-866, `american_to_prob` (textually the same formula as
`calculate_implied_probability`, kept as its own definition as in the source). -/
def american_to_prob (odds : ℚ) : ℚ :=
  if 0 < odds then 100 / (odds + 100) else |odds| / (|odds| + 100)

/-- Python 3 `round` on a rational value: round-half-to-even (the model of
`int(round(x))` used by `prob_to_american`). -/
def pyRound (q : ℚ) : ℤ :=
  let f := ⌊q⌋
  let r := q - f
  if r < 1/2 then f
  else if 1/2 < r then f + 1
  else if 2 ∣ f then f else f + 1

/-- ev.py lines 868-873, module-level `prob_to_american` (rounds to an
integer American price). -/
def prob_to_american (prob : ℚ) : ℤ :=
  if 1/2 ≤ prob then pyRound (-100 * prob / (1 - prob))
  else pyRound (100 * (1 - prob) / prob)

/-! ## Fair-value engine (ev.py lines 185-227, 383-416) -/

/-- ev.py lines 185-195, `devig_pinnacle_odds` (the `pinnacle_hold` argument is
accepted and unused, as in the source). -/
def devig_pinnacle_odds (odds1 odds2 pinnacle_hold : ℚ) : ℚ × ℚ :=
  let prob1 := calculate_implied_probability odds1
  let prob2 := calculate_implied_probability odds2
  let total_prob := prob1 + prob2
  (prob1 / total_prob, prob2 / total_prob)

/-- ev.py lines 400-404: the fair (devigged) probability pair computed inside
`calculate_fair_value`. -/
def fairProbs (odds1 odds2 : ℚ) : ℚ × ℚ :=
  let prob1 := calculate_implied_probability odds1
  let prob2 := calculate_implied_probability odds2
  let total_prob := prob1 + prob2
  (prob1 / total_prob, prob2 / total_prob)

/-- ev.py lines 407-411: the `prob_to_american` closure nested inside
`calculate_fair_value` (returns a float, i.e. no rounding, unlike the
module-level `prob_to_american`). -/
def fv_prob_to_american (prob : ℚ) : ℚ :=
  if 1/2 ≤ prob then -100 * prob / (1 - prob) else 100 * (1 - prob) / prob

/-- ev.py lines 383-416, `calculate_fair_value`: returns
`(fair_odds1, fair_odds2, hold)` where `hold = prob1 + prob2 - 1` is NOT
clamped. -/
def calculate_fair_value (odds1 odds2 : ℚ) : ℚ × ℚ × ℚ :=
  let prob1 := calculate_implied_probability odds1
  let prob2 := calculate_implied_probability odds2
  let hold := (prob1 + prob2) - 1
  let fp := fairProbs odds1 odds2
  (fv_prob_to_american fp.1, fv_prob_to_american fp.2, hold)

/-- ev.py lines 212-227, `calculate_hold`: the hold, clamped to be
non-negative via `max(0, hold)`. -/
def calculate_hold (odds1 odds2 : ℚ) : ℚ :=
  let prob1 := calculate_implied_probability odds1
  let prob2 := calculate_implied_probability odds2
  max 0 (prob1 + prob2 - 1)

/-! ## Edge / EV calculator (ev.py lines 197-210, 418-454) -/

/-- ev.py lines 197-210, `calculate_edge`: raw edge `decimal * true_prob - 1`
capped from above at `MAX_EDGE_CALC` via Python `min`. -/
def calculate_edge (bet_odds true_prob : ℚ) : ℚ :=
  let decimal_odds := american_to_decimal bet_odds
  let raw_edge := decimal_odds * true_prob - 1
  min raw_edge MAX_EDGE_CALC

/-- ev.py lines 418-454, `calculate_ev`: returns
`(edge_percentage, ev_percentage)`; the edge here is `(1/bet_prob)*fair_prob - 1`
with no cap applied. -/
def calculate_ev (bet_odds fair_odds : ℚ) : ℚ × ℚ :=
  let bet_prob := calculate_implied_probability bet_odds
  let fair_prob := calculate_implied_probability fair_odds
  let profit := if bet_odds < 0 then |100 / bet_odds| else bet_odds / 100
  let ev := (fair_prob * profit - (1 - fair_prob)) * 100
  let edge := (1 / bet_prob) * fair_prob - 1
  (edge * 100, ev)

/-! ## Kelly bet sizer (ev.py lines 229-263) -/

/-- ev.py lines 229-263, `kelly_criterion`: returns `(units, dollar_amount)`.
The stake percentage is `min(MAX_UNIT_PCT, kelly_pct * kelly_fraction)` then
`max(MIN_UNIT_PCT, ...)`. -/
def kelly_criterion (edge odds kelly_fraction : ℚ) : ℚ × ℚ :=
  let decimal_odds := american_to_decimal odds
  let implied_prob := calculate_implied_probability odds
  let win_prob := edge + implied_prob
  let b := decimal_odds - 1
  let p := win_prob
  let q := 1 - p
  let kelly_pct := if 0 < b then ((b * p) - q) / b else 0
  let bet_pct := max MIN_UNIT_PCT (min MAX_UNIT_PCT (kelly_pct * kelly_fraction))
  let units := bet_pct / MIN_UNIT_PCT
  let dollar_amount := units * BASE_UNIT
  (units, dollar_amount)

/-! ## Consensus builder (ev.py lines 280-381, 875-910)

The provider JSON a bookmaker contributes is modelled structurally: an outcome
dict may lack any of the fields the code reads with `.get`, so each field is an
`Option`. -/

structure Outcome where
  description : Option String
  name : Option String
  point : Option ℚ
  price : Option ℚ
deriving DecidableEq

structure Market where
  key : String
  outcomes : List Outcome
deriving DecidableEq

structure BookData where
  markets : List Market
deriving DecidableEq

/-- Model of Python `str.lower()` (ASCII lowercasing, character by
character). -/
def pyLower (s : String) : String := String.mk (s.data.map Char.toLower)

/-- Predicate for the main-outcome search in `find_matching_odds`
(ev.py lines 885-891): `o.get('description','') == player`,
`o.get('point') == line_value` (a missing `point` compares unequal to the
concrete float `line_value`), and `o.get('name','').lower()` matches. -/
def outcomeMatches (player : String) (line_value : ℚ) (wanted : String) (o : Outcome) : Bool :=
  decide (o.description.getD "" = player) && decide (o.point = some line_value) &&
    decide (pyLower (o.name.getD "") = wanted)

/-- ev.py lines 875-910, `find_matching_odds`: locate the market with the
given key, then the main and opposing outcomes; return their `price` fields.
A found outcome dict is truthy (it matched `point == line_value`, so it is
non-empty), so the Python `if main_outcome and opp_outcome` test is the match
on both searches succeeding. -/
def find_matching_odds (player market_type prop_type : String) (line_value : ℚ)
    (book_data : BookData) : Option ℚ × Option ℚ :=
  match book_data.markets.find? (fun m => decide (m.key = market_type)) with
  | none => (none, none)
  | some market =>
    let opp_type := if pyLower prop_type = "over" then "under" else "over"
    let main_outcome := market.outcomes.find? (outcomeMatches player line_value (pyLower prop_type))
    let opp_outcome := market.outcomes.find? (outcomeMatches player line_value opp_type)
    match main_outcome, opp_outcome with
    | some mo, some oo => (mo.price, oo.price)
    | _, _ => (none, none)

/-- ev.py lines 288-296: the `book_weights` table local to
`calculate_consensus_line`. -/
def book_weights : List (String × ℚ) :=
  [("pinnacle", 1/2), ("fanduel", 3/10), ("draftkings", 3/10), ("betmgm", 3/10),
   ("betonlineag", 2/5), ("fliff", 1/5), ("underdog", 1/5)]

def lookupWeight (name : String) : Option ℚ :=
  (book_weights.find? (fun e => decide (e.1 = name))).map Prod.snd

/-- The `bookmakers` argument of `calculate_consensus_line`.  The body iterates
it as a dict (`.items()`), but the caller `process_player_props` (ev.py lines
535, 641-643) passes `props_data.get('bookmakers', [])`, a Python list of
bookmaker dicts, so both shapes must be modelled. -/
inductive Bookmakers
  | dict (entries : List (String × BookData))
  | list (elems : List BookData)
deriving DecidableEq

/-- ev.py line 299 for a dict argument: `[book for book in bookmakers if book
in book_weights]` iterates the dict's keys and keeps those present in the
weight table. -/
def validBooksOfDict (entries : List (String × BookData)) : List String :=
  (entries.map Prod.fst).filter (fun k => (lookupWeight k).isSome)

/-- One contributing book gathered by the loop at ev.py lines 305-340. -/
structure BookEntry where
  name : String
  main_prob : ℚ
  opp_prob : ℚ
  weight : ℚ
deriving DecidableEq

/-- ev.py lines 305-340: iterate `bookmakers.items()`, skip books outside the
weight table, call `find_matching_odds`, and keep a book only when both prices
are truthy (`if main_odds and opp_odds`: Python truthiness, so `None` and a
zero price are both skipped). -/
def gatherBooks (player market_type prop_type : String) (line_value : ℚ)
    (entries : List (String × BookData)) : List BookEntry :=
  entries.filterMap (fun e =>
    match lookupWeight e.1 with
    | none => none
    | some w =>
      match find_matching_odds player market_type prop_type line_value e.2 with
      | (some main_odds, some opp_odds) =>
        if main_odds ≠ 0 ∧ opp_odds ≠ 0 then
          some ⟨e.1, american_to_prob main_odds, american_to_prob opp_odds, w⟩
        else none
      | _ => none)

def totalWeight (books : List BookEntry) : ℚ := (books.map BookEntry.weight).sum

/-- ev.py line 352: `sum(odds['main_prob'] * odds['weight'] ...) / total_weight`. -/
def weightedMainProb (books : List BookEntry) : ℚ :=
  (books.map (fun b => b.main_prob * b.weight)).sum / totalWeight books

/-- ev.py line 353. -/
def weightedOppProb (books : List BookEntry) : ℚ :=
  (books.map (fun b => b.opp_prob * b.weight)).sum / totalWeight books

/-- ev.py lines 356-362: running maximum (from 0) of the absolute main-side
deviations from the weighted average. -/
def maxMainDiff (books : List BookEntry) (avg : ℚ) : ℚ :=
  books.foldl (fun acc b => max acc |b.main_prob - avg|) 0

/-- ev.py lines 356-362, opposing side. -/
def maxOppDiff (books : List BookEntry) (avg : ℚ) : ℚ :=
  books.foldl (fun acc b => max acc |b.opp_prob - avg|) 0

/-- Result triple of `calculate_consensus_line`:
`(consensus_main, consensus_opp, number_of_contributing_books)`, each `None`
when unavailable. -/
abbrev ConsensusResult := Option ℤ × Option ℤ × Option ℕ

/-- Body of `calculate_consensus_line` (ev.py lines 283-377), inside the
`try`.  For a list argument the comprehension at line 299 evaluates
`book in book_weights` on a bookmaker dict, which raises
`TypeError: unhashable type` on the first element; an empty list produces
`valid_books = []` and falls into the too-few-books early return.  (Had a
non-empty list survived line 299, `.items()` at line 305 would raise
`AttributeError`.)  For a dict argument no step of the body can raise: the
weighted divisions are by a positive total weight, and the final conversions
divide by probabilities strictly inside (0,1). -/
def consensusBody (player market_type prop_type : String) (line_value : ℚ)
    (bookmakers : Bookmakers) : Except PyErr ConsensusResult :=
  match bookmakers with
  | .list elems =>
    if elems.isEmpty then Except.ok (none, none, none)
    else Except.error PyErr.typeError
  | .dict entries =>
    if (validBooksOfDict entries).length < MIN_BOOKS_FOR_CONSENSUS then
      Except.ok (none, none, none)
    else if (gatherBooks player market_type prop_type line_value entries).isEmpty then
      Except.ok (none, none, none)
    else if MAX_PROB_DIFF < maxMainDiff (gatherBooks player market_type prop_type line_value entries)
            (weightedMainProb (gatherBooks player market_type prop_type line_value entries)) ∧
        MAX_PROB_DIFF < maxOppDiff (gatherBooks player market_type prop_type line_value entries)
            (weightedOppProb (gatherBooks player market_type prop_type line_value entries)) then
      Except.ok (none, none, none)
    else
      Except.ok
        (some (prob_to_american
          (weightedMainProb (gatherBooks player market_type prop_type line_value entries))),
         some (prob_to_american
          (weightedOppProb (gatherBooks player market_type prop_type line_value entries))),
         some (gatherBooks player market_type prop_type line_value entries).length)

/-- ev.py lines 280-381, `calculate_consensus_line`: the whole body runs
inside `try: ... except Exception: return None, None, None`, so every raised
exception is converted to the unavailable sentinel. -/
def calculate_consensus_line (player market_type prop_type : String) (line_value : ℚ)
    (bookmakers : Bookmakers) : ConsensusResult :=
  match consensusBody player market_type prop_type line_value bookmakers with
  | .ok r => r
  | .error _ => (none, none, none)

/-! ## Concrete data used by witnesses -/

/-- A bookmaker quoting LeBron James Over/Under 25 points at -110 each way. -/
def sampleBookData : BookData :=
  ⟨[⟨"player_points",
     [⟨some "LeBron James", some "Over", some 25, some (-110)⟩,
      ⟨some "LeBron James", some "Under", some 25, some (-110)⟩]⟩]⟩

/-- Two weighted books with identical quotes (consensus should succeed). -/
def sampleEntries : List (String × BookData) :=
  [("fanduel", sampleBookData), ("draftkings", sampleBookData)]

/-! ## Helper lemmas -/

/-- For a nonzero American price the implied probability is strictly between
0 and 1. -/
theorem implied_prob_mem (odds : ℚ) (h : odds ≠ 0) :
    0 < calculate_implied_probability odds ∧ calculate_implied_probability odds < 1 := by
  unfold calculate_implied_probability
  split_ifs with h0
  · refine ⟨div_pos (by norm_num) (by linarith), ?_⟩
    rw [div_lt_one (by linarith)]
    linarith
  · have habs : 0 < |odds| := abs_pos.mpr h
    refine ⟨div_pos habs (by linarith), ?_⟩
    rw [div_lt_one (by linarith)]
    linarith

/-- Python `round` of an integer value is that integer. -/
theorem pyRound_intCast (n : ℤ) : pyRound (n : ℚ) = n := by
  unfold pyRound
  norm_num [Int.floor_intCast]

/-- Evaluation of the gathering loop on the sample input: both weighted books
contribute with their quoted -110 prices. -/
theorem gatherBooks_sample :
    gatherBooks "LeBron James" "player_points" "Over" 25 sampleEntries
      = [⟨"fanduel", american_to_prob (-110), american_to_prob (-110), 3/10⟩,
         ⟨"draftkings", american_to_prob (-110), american_to_prob (-110), 3/10⟩] := rfl

/-- On the sample input both books agree exactly, so the main-side deviation
is within tolerance. -/
theorem sample_within_tolerance :
    maxMainDiff (gatherBooks "LeBron James" "player_points" "Over" 25 sampleEntries)
      (weightedMainProb (gatherBooks "LeBron James" "player_points" "Over" 25 sampleEntries))
      ≤ MAX_PROB_DIFF := by
  rw [gatherBooks_sample]
  norm_num [maxMainDiff, weightedMainProb, totalWeight, american_to_prob, MAX_PROB_DIFF,
    List.foldl_cons, List.foldl_nil, abs_of_nonpos, abs_of_nonneg]

/-- The stake-percentage clamp inside `kelly_criterion`, with the fractional
Kelly value abstracted. -/
theorem kelly_shape (edge odds kelly_fraction : ℚ) :
    ∃ x : ℚ, kelly_criterion edge odds kelly_fraction =
      (max MIN_UNIT_PCT (min MAX_UNIT_PCT x) / MIN_UNIT_PCT,
       max MIN_UNIT_PCT (min MAX_UNIT_PCT x) / MIN_UNIT_PCT * BASE_UNIT) :=
  ⟨_, rfl⟩

/-! ## Claim theorems -/

/-- Claim C1, counterexample: the cap in `calculate_edge` is `min`, an upper
cap only, so the absolute value of the edge is NOT bounded by `MAX_EDGE_CALC`:
at offered price -200 and fair probability 1/100 the returned edge is
-197/200, of magnitude 0.985 > 0.15.  Moreover the edge `calculate_ev` returns
is not capped at all: at bet odds +100 against fair odds -300 it returns an
edge of 50%, above the 15% cap. -/
theorem c1_counterexample :
    calculate_edge (-200) (1/100) = -(197/200) ∧
    ¬ |calculate_edge (-200) (1/100)| ≤ MAX_EDGE_CALC ∧
    (calculate_ev 100 (-300)).1 = 50 ∧
    ¬ |(calculate_ev 100 (-300)).1 / 100| ≤ MAX_EDGE_CALC := by
  have h1 : calculate_edge (-200) (1/100) = -(197/200) := by
    norm_num [calculate_edge, american_to_decimal, MAX_EDGE_CALC, min_def]
  have h2 : (calculate_ev 100 (-300)).1 = 50 := by
    norm_num [calculate_ev, calculate_implied_probability]
  refine ⟨h1, ?_, h2, ?_⟩
  · rw [h1]
    norm_num [MAX_EDGE_CALC, abs_of_pos]
  · rw [h2]
    norm_num [MAX_EDGE_CALC, abs_of_pos]

/-- Claim C1, amended: `calculate_edge` caps the raw edge from above only —
its result never exceeds `MAX_EDGE_CALC`, and a raw edge at or above the cap
is returned as exactly the cap (capping, not rejection); there is no cap on
the magnitude of negative edges, and the edge returned by `calculate_ev` is
not capped. -/
theorem c1_edge_cap_upper (bet_odds true_prob : ℚ) :
    calculate_edge bet_odds true_prob ≤ MAX_EDGE_CALC ∧
    (MAX_EDGE_CALC ≤ american_to_decimal bet_odds * true_prob - 1 →
      calculate_edge bet_odds true_prob = MAX_EDGE_CALC) :=
  ⟨min_le_right _ _, fun h => min_eq_right h⟩

/-- Claim C1 witness: at offered price -200 and fair probability 2 the raw
edge is 2 ≥ 0.15, and the returned edge is exactly the cap. -/
theorem c1_witness :
    calculate_edge (-200) 2 = MAX_EDGE_CALC ∧ calculate_edge (-200) 2 ≤ MAX_EDGE_CALC :=
  ⟨(c1_edge_cap_upper (-200) 2).2 (by norm_num [american_to_decimal, MAX_EDGE_CALC]),
   (c1_edge_cap_upper (-200) 2).1⟩

/-- Claim C2: for nonzero complementary prices, `devig_pinnacle_odds` equals
the fair-probability pair computed inside `calculate_fair_value`, and both
output probabilities lie strictly in (0,1) and sum to exactly 1. -/
theorem c2_devig_probabilities (odds1 odds2 pinnacle_hold : ℚ)
    (h1 : odds1 ≠ 0) (h2 : odds2 ≠ 0) :
    devig_pinnacle_odds odds1 odds2 pinnacle_hold = fairProbs odds1 odds2 ∧
    0 < (fairProbs odds1 odds2).1 ∧ (fairProbs odds1 odds2).1 < 1 ∧
    0 < (fairProbs odds1 odds2).2 ∧ (fairProbs odds1 odds2).2 < 1 ∧
    (fairProbs odds1 odds2).1 + (fairProbs odds1 odds2).2 = 1 := by
  obtain ⟨hp1, hl1⟩ := implied_prob_mem odds1 h1
  obtain ⟨hp2, hl2⟩ := implied_prob_mem odds2 h2
  have htot : 0 < calculate_implied_probability odds1 + calculate_implied_probability odds2 := by
    linarith
  simp only [fairProbs]
  refine ⟨rfl, div_pos hp1 htot, ?_, div_pos hp2 htot, ?_, ?_⟩
  · rw [div_lt_one htot]
    linarith
  · rw [div_lt_one htot]
    linarith
  · rw [div_add_div_same, div_self (ne_of_gt htot)]

/-- Claim C2 witness: the devig invariants at the concrete vigged pair
(-110, -110). -/
theorem c2_witness :
    devig_pinnacle_odds (-110) (-110) 0 = fairProbs (-110) (-110) ∧
    0 < (fairProbs (-110) (-110)).1 ∧ (fairProbs (-110) (-110)).1 < 1 ∧
    0 < (fairProbs (-110) (-110)).2 ∧ (fairProbs (-110) (-110)).2 < 1 ∧
    (fairProbs (-110) (-110)).1 + (fairProbs (-110) (-110)).2 = 1 :=
  c2_devig_probabilities (-110) (-110) 0 (by norm_num) (by norm_num)

/-- Claim C4: for every edge, nonzero price and Kelly fraction, the stake
percentage implied by `kelly_criterion` (units times `MIN_UNIT_PCT`,
equivalently dollars over `BANKROLL`) lies in the closed band
`[MIN_UNIT_PCT, MAX_UNIT_PCT]`. -/
theorem c4_kelly_clamped (edge odds kelly_fraction : ℚ) (h : odds ≠ 0) :
    MIN_UNIT_PCT ≤ (kelly_criterion edge odds kelly_fraction).1 * MIN_UNIT_PCT ∧
    (kelly_criterion edge odds kelly_fraction).1 * MIN_UNIT_PCT ≤ MAX_UNIT_PCT ∧
    (kelly_criterion edge odds kelly_fraction).2 / BANKROLL
      = (kelly_criterion edge odds kelly_fraction).1 * MIN_UNIT_PCT := by
  obtain ⟨x, hx⟩ := kelly_shape edge odds kelly_fraction
  rw [hx]
  simp only
  have hmin0 : MIN_UNIT_PCT ≠ 0 := by norm_num [MIN_UNIT_PCT]
  rw [div_mul_cancel₀ _ hmin0]
  refine ⟨le_max_left _ _, ?_, ?_⟩
  · exact max_le (by norm_num [MIN_UNIT_PCT, MAX_UNIT_PCT]) (min_le_left _ _)
  · rw [BASE_UNIT, BANKROLL, MIN_UNIT_PCT]
    ring

/-- Claim C4 witness: the clamp invariants at edge 5%, price -110,
quarter-Kelly. -/
theorem c4_witness :
    MIN_UNIT_PCT ≤ (kelly_criterion (1/20) (-110) (1/4)).1 * MIN_UNIT_PCT ∧
    (kelly_criterion (1/20) (-110) (1/4)).1 * MIN_UNIT_PCT ≤ MAX_UNIT_PCT ∧
    (kelly_criterion (1/20) (-110) (1/4)).2 / BANKROLL
      = (kelly_criterion (1/20) (-110) (1/4)).1 * MIN_UNIT_PCT :=
  c4_kelly_clamped (1/20) (-110) (1/4) (by norm_num)

/-- Claim C7, counterexample: the hold returned by `calculate_fair_value` is
NOT clamped: at the pair (+150, +150) the implied probabilities sum to 0.8 and
the returned hold is -1/5 < 0. -/
theorem c7_counterexample :
    (calculate_fair_value 150 150).2.2 = -(1/5) ∧
    ¬ 0 ≤ (calculate_fair_value 150 150).2.2 := by
  have h : (calculate_fair_value 150 150).2.2 = -(1/5) := by
    norm_num [calculate_fair_value, calculate_implied_probability]
  exact ⟨h, by rw [h]; norm_num⟩

/-- Claim C7, amended: `calculate_hold` clamps the hold to be non-negative
(`max(0, prob1 + prob2 - 1)`), but `calculate_fair_value` returns the raw
unclamped hold `prob1 + prob2 - 1`, which is negative whenever the implied
probabilities sum to less than 1. -/
theorem c7_hold_clamped (odds1 odds2 : ℚ) :
    0 ≤ calculate_hold odds1 odds2 ∧
    calculate_hold odds1 odds2 =
      max 0 (calculate_implied_probability odds1 + calculate_implied_probability odds2 - 1) ∧
    (calculate_fair_value odds1 odds2).2.2 =
      calculate_implied_probability odds1 + calculate_implied_probability odds2 - 1 :=
  ⟨le_max_left _ _, rfl, rfl⟩

/-- Claim C8, counterexample: at price 0 the conversion raises
`ZeroDivisionError` (from `100 / odds`); the source defines no
`InvalidPriceError` and does not raise one. -/
theorem c8_counterexample :
    americanToDecimalE 0 = Except.error PyErr.zeroDivisionError ∧
    americanToDecimalE 0 ≠ Except.error PyErr.invalidPriceError := by
  constructor
  · norm_num [americanToDecimalE]
  · norm_num [americanToDecimalE]
    decide

/-- Claim C8, amended: `american_to_decimal` fails exactly when its price is 0
— with a raised `ZeroDivisionError` (not the spec's `InvalidPriceError`, which
does not exist in the code), not a swallowed error — and for nonzero prices
returns `1 + price/100` when positive and `1 - 100/price` when negative. -/
theorem c8_zero_price (odds : ℚ) :
    (odds = 0 → americanToDecimalE odds = Except.error PyErr.zeroDivisionError) ∧
    (americanToDecimalE odds = Except.error PyErr.zeroDivisionError → odds = 0) ∧
    (0 < odds → americanToDecimalE odds = Except.ok (1 + odds / 100)) ∧
    (odds < 0 → americanToDecimalE odds = Except.ok (1 - 100 / odds)) := by
  unfold americanToDecimalE
  refine ⟨?_, ?_, ?_, ?_⟩
  · intro h
    subst h
    norm_num
  · intro h
    by_contra hne
    split_ifs at h
  · intro h
    rw [if_pos h]
  · intro h
    rw [if_neg (by linarith), if_neg (by linarith)]

/-- Claim C8 witness: price -200 converts to decimal odds 3/2, and price 0
raises `ZeroDivisionError`. -/
theorem c8_witness :
    americanToDecimalE (-200) = Except.ok (3/2) ∧
    americanToDecimalE 0 = Except.error PyErr.zeroDivisionError := by
  constructor
  · have h := (c8_zero_price (-200)).2.2.2 (by norm_num)
    rw [h]
    norm_num
  · exact (c8_zero_price 0).1 rfl

/-- Claim C10: for every nonzero price, decimal odds are the exact reciprocal
of the implied probability, and hence the edge percentage `calculate_ev`
computes via `(1/bet_prob)*fair_prob - 1` equals (100 times) the
decimal-odds edge formula used by `calculate_edge` before its cap. -/
theorem c10_reciprocal (bet_odds fair_odds : ℚ) (h : bet_odds ≠ 0) :
    american_to_decimal bet_odds * calculate_implied_probability bet_odds = 1 ∧
    (calculate_ev bet_odds fair_odds).1 =
      100 * (american_to_decimal bet_odds * calculate_implied_probability fair_odds - 1) := by
  have hrec : american_to_decimal bet_odds * calculate_implied_probability bet_odds = 1 := by
    unfold american_to_decimal calculate_implied_probability
    rcases lt_trichotomy bet_odds 0 with hneg | h0 | hpos
    · rw [if_neg (not_lt.mpr hneg.le), if_neg (not_lt.mpr hneg.le), abs_of_neg hneg]
      have hd : -bet_odds + 100 ≠ 0 := by linarith
      field_simp
      ring
    · exact absurd h0 h
    · rw [if_pos hpos, if_pos hpos]
      have hd : bet_odds + 100 ≠ 0 := by linarith
      field_simp
      ring
  refine ⟨hrec, ?_⟩
  have hbp : calculate_implied_probability bet_odds ≠ 0 :=
    ne_of_gt (implied_prob_mem bet_odds h).1
  have hinv : 1 / calculate_implied_probability bet_odds = american_to_decimal bet_odds := by
    rw [div_eq_iff hbp]
    linarith [hrec]
  simp only [calculate_ev]
  rw [hinv]
  ring

/-- Claim C10 witness: the reciprocal identity and edge-formula agreement at
bet odds -110 against fair odds +100. -/
theorem c10_witness :
    american_to_decimal (-110) * calculate_implied_probability (-110) = 1 ∧
    (calculate_ev (-110) 100).1 =
      100 * (american_to_decimal (-110) * calculate_implied_probability 100 - 1) :=
  c10_reciprocal (-110) 100 (by norm_num)

/-- Claim C9: for integer American prices in -10000..-101 and 101..10000, the
probability round trip `prob_to_american (american_to_prob price)` returns a
price within ±1 of the original (in fact exactly the original). -/
theorem c9_round_trip (p : ℤ)
    (h : (101 ≤ p ∧ p ≤ 10000) ∨ (-10000 ≤ p ∧ p ≤ -101)) :
    |prob_to_american (american_to_prob (p : ℚ)) - p| ≤ 1 := by
  have key : prob_to_american (american_to_prob (p : ℚ)) = p := by
    rcases h with ⟨hlo, _⟩ | ⟨_, hhi⟩
    · have hp101 : (101 : ℚ) ≤ (p : ℚ) := by exact_mod_cast hlo
      have hp : (0 : ℚ) < (p : ℚ) := by linarith
      have hd : (0 : ℚ) < (p : ℚ) + 100 := by linarith
      have hprob : american_to_prob (p : ℚ) = 100 / ((p : ℚ) + 100) := by
        unfold american_to_prob
        rw [if_pos hp]
      have hlt : american_to_prob (p : ℚ) < 1/2 := by
        rw [hprob, div_lt_iff₀ hd]
        linarith
      unfold prob_to_american
      rw [if_neg (not_le.mpr hlt)]
      have harg : 100 * (1 - american_to_prob (p : ℚ)) / american_to_prob (p : ℚ) = (p : ℚ) := by
        rw [hprob]
        field_simp
      rw [harg, pyRound_intCast]
    · have hm101 : (101 : ℚ) ≤ -(p : ℚ) := by
        have : (p : ℚ) ≤ -101 := by exact_mod_cast hhi
        linarith
      have hneg : (p : ℚ) < 0 := by linarith
      have hd : (0 : ℚ) < -(p : ℚ) + 100 := by linarith
      have hprob : american_to_prob (p : ℚ) = -(p : ℚ) / (-(p : ℚ) + 100) := by
        unfold american_to_prob
        rw [if_neg (not_lt.mpr hneg.le), abs_of_neg hneg]
      have hge : 1/2 ≤ american_to_prob (p : ℚ) := by
        rw [hprob, le_div_iff₀ hd]
        linarith
      unfold prob_to_american
      rw [if_pos hge]
      have harg : -100 * american_to_prob (p : ℚ) / (1 - american_to_prob (p : ℚ)) = (p : ℚ) := by
        have hd' : -(p : ℚ) + 100 ≠ 0 := ne_of_gt hd
        have hone : 1 - -(p : ℚ) / (-(p : ℚ) + 100) = 100 / (-(p : ℚ) + 100) := by
          field_simp
        rw [hprob, hone]
        field_simp
      rw [harg, pyRound_intCast]
  rw [key]
  simp

/-- Claim C9 witness: the round trip at price -110 is within ±1. -/
theorem c9_witness :
    ((101 ≤ (-110 : ℤ) ∧ (-110 : ℤ) ≤ 10000) ∨
      (-10000 ≤ (-110 : ℤ) ∧ (-110 : ℤ) ≤ -101)) ∧
    |prob_to_american (american_to_prob ((-110 : ℤ) : ℚ)) - (-110 : ℤ)| ≤ 1 :=
  ⟨by decide, c9_round_trip (-110) (by decide)⟩

/-- Claim C3: `calculate_consensus_line` never propagates an exception — any
error from the body is converted to the sentinel `(None, None, None)` — and
for every call whose `bookmakers` argument is a Python list (exactly what
`process_player_props` passes), it returns the sentinel: a non-empty list
raises `TypeError` at the `book in book_weights` membership test (dicts are
unhashable), caught by the outer handler, and an empty list fails the
minimum-books check. -/
theorem c3_consensus_catches_exceptions (player market_type prop_type : String)
    (line_value : ℚ) (bookmakers : Bookmakers) :
    (∀ e, consensusBody player market_type prop_type line_value bookmakers = Except.error e →
      calculate_consensus_line player market_type prop_type line_value bookmakers
        = (none, none, none)) ∧
    (∀ elems, bookmakers = Bookmakers.list elems →
      calculate_consensus_line player market_type prop_type line_value bookmakers
        = (none, none, none)) := by
  constructor
  · intro e he
    simp only [calculate_consensus_line, he]
  · rintro elems rfl
    simp only [calculate_consensus_line, consensusBody]
    by_cases hE : elems.isEmpty = true
    · rw [if_pos hE]
    · rw [if_neg hE]

/-- Claim C3 witness: a non-empty list of bookmaker dicts — the shape the
scanner's consensus fallback passes — yields the unavailable sentinel. -/
theorem c3_witness :
    calculate_consensus_line "LeBron James" "player_points" "Over" 25
      (Bookmakers.list [sampleBookData]) = (none, none, none) :=
  (c3_consensus_catches_exceptions "LeBron James" "player_points" "Over" 25
    (Bookmakers.list [sampleBookData])).2 [sampleBookData] rfl

/-- Claim C5: for a dict argument in which fewer than
`MIN_BOOKS_FOR_CONSENSUS` of the quoting books appear in the weight table,
`calculate_consensus_line` returns the unavailable sentinel, and the body
completes without raising (it returns `ok`). -/
theorem c5_too_few_books (player market_type prop_type : String) (line_value : ℚ)
    (entries : List (String × BookData))
    (h : (validBooksOfDict entries).length < MIN_BOOKS_FOR_CONSENSUS) :
    consensusBody player market_type prop_type line_value (Bookmakers.dict entries)
      = Except.ok (none, none, none) ∧
    calculate_consensus_line player market_type prop_type line_value (Bookmakers.dict entries)
      = (none, none, none) := by
  have hb : consensusBody player market_type prop_type line_value (Bookmakers.dict entries)
      = Except.ok (none, none, none) := by
    simp only [consensusBody]
    rw [if_pos h]
  refine ⟨hb, ?_⟩
  simp only [calculate_consensus_line, hb]

/-- Claim C5 witness: a single weighted quoting book is below the minimum of
two, so the consensus is unavailable and no exception occurs. -/
theorem c5_witness :
    consensusBody "LeBron James" "player_points" "Over" 25
      (Bookmakers.dict [("fanduel", sampleBookData)]) = Except.ok (none, none, none) ∧
    calculate_consensus_line "LeBron James" "player_points" "Over" 25
      (Bookmakers.dict [("fanduel", sampleBookData)]) = (none, none, none) :=
  c5_too_few_books "LeBron James" "player_points" "Over" 25
    [("fanduel", sampleBookData)] (by decide)

/-- Claim C6: once at least one contributing book has been gathered (and the
minimum-books check passed), consensus is rejected for disagreement only when
BOTH maximum absolute deviations exceed `MAX_PROB_DIFF`; when at least one
side is within tolerance, the weighted-average probabilities are converted
back to American odds and returned with the contributing-book count. -/
theorem c6_reject_only_if_both_disagree (player market_type prop_type : String)
    (line_value : ℚ) (entries : List (String × BookData))
    (hmin : ¬ (validBooksOfDict entries).length < MIN_BOOKS_FOR_CONSENSUS)
    (hne : gatherBooks player market_type prop_type line_value entries ≠ []) :
    (MAX_PROB_DIFF < maxMainDiff (gatherBooks player market_type prop_type line_value entries)
        (weightedMainProb (gatherBooks player market_type prop_type line_value entries)) ∧
     MAX_PROB_DIFF < maxOppDiff (gatherBooks player market_type prop_type line_value entries)
        (weightedOppProb (gatherBooks player market_type prop_type line_value entries)) →
      calculate_consensus_line player market_type prop_type line_value (Bookmakers.dict entries)
        = (none, none, none)) ∧
    (maxMainDiff (gatherBooks player market_type prop_type line_value entries)
        (weightedMainProb (gatherBooks player market_type prop_type line_value entries))
          ≤ MAX_PROB_DIFF ∨
     maxOppDiff (gatherBooks player market_type prop_type line_value entries)
        (weightedOppProb (gatherBooks player market_type prop_type line_value entries))
          ≤ MAX_PROB_DIFF →
      calculate_consensus_line player market_type prop_type line_value (Bookmakers.dict entries)
        = (some (prob_to_american
            (weightedMainProb (gatherBooks player market_type prop_type line_value entries))),
           some (prob_to_american
            (weightedOppProb (gatherBooks player market_type prop_type line_value entries))),
           some (gatherBooks player market_type prop_type line_value entries).length)) := by
  have hE : ¬ (gatherBooks player market_type prop_type line_value entries).isEmpty = true := by
    simpa [List.isEmpty_iff] using hne
  constructor
  · intro hboth
    simp only [calculate_consensus_line, consensusBody]
    rw [if_neg hmin, if_neg hE, if_pos hboth]
  · intro hone
    have hnb : ¬ (MAX_PROB_DIFF < maxMainDiff
          (gatherBooks player market_type prop_type line_value entries)
          (weightedMainProb (gatherBooks player market_type prop_type line_value entries)) ∧
        MAX_PROB_DIFF < maxOppDiff
          (gatherBooks player market_type prop_type line_value entries)
          (weightedOppProb (gatherBooks player market_type prop_type line_value entries))) := by
      rcases hone with h | h
      · exact fun hc => absurd hc.1 (not_lt.mpr h)
      · exact fun hc => absurd hc.2 (not_lt.mpr h)
    simp only [calculate_consensus_line, consensusBody]
    rw [if_neg hmin, if_neg hE, if_neg hnb]

/-- Claim C6 witness: two weighted books quoting -110 each way on the same
line agree exactly (both deviations 0 ≤ tolerance), so the consensus returns the
weighted-average odds and the count of contributing books. -/
theorem c6_witness :
    calculate_consensus_line "LeBron James" "player_points" "Over" 25
      (Bookmakers.dict sampleEntries)
      = (some (prob_to_american (weightedMainProb
            (gatherBooks "LeBron James" "player_points" "Over" 25 sampleEntries))),
         some (prob_to_american (weightedOppProb
            (gatherBooks "LeBron James" "player_points" "Over" 25 sampleEntries))),
         some (gatherBooks "LeBron James" "player_points" "Over" 25 sampleEntries).length) :=
  (c6_reject_only_if_both_disagree "LeBron James" "player_points" "Over" 25 sampleEntries
    (by decide) (by decide)).2 (Or.inl sample_within_tolerance)

end NbaEV
